import Mathlib

/-!
Verification of the build-orchestration and graph-instrumentation subsystem
of the fv3gfs-integration repository.

Embedded modules:
  - src/dsl/pace/dsl/dace/dace_config.py : DaCeOrchestration, DaceConfig
  - src/dsl/pace/dsl/dace/utils.py       : DaCeProgress, is_ref, count_memory,
                                           NaN_checker

External calls made by the constructor (read_target_rank,
set_distributed_caches, write_decomposition live in pace.dsl.dace.build,
outside the inspected sources) are modelled as emitted effects: the
constructor returns, besides its result, the ordered list of external calls
it performed.  Python exceptions are modelled with Except.
-/

namespace FV3

/-- The DaCeOrchestration enum of dace_config.py: Python = direct python
orchestration, Build = compile and save only, BuildAndRun = compile, save and
run, Run = load a previously saved artifact and run. -/
inductive DaCeOrchestration
  | Python
  | Build
  | BuildAndRun
  | Run
deriving DecidableEq, Repr

/-- Enum member name, as used by DaCeOrchestration[name] lookup. -/
def DaCeOrchestration.enumName : DaCeOrchestration → String
  | DaCeOrchestration.Python => "Python"
  | DaCeOrchestration.Build => "Build"
  | DaCeOrchestration.BuildAndRun => "BuildAndRun"
  | DaCeOrchestration.Run => "Run"

/-- Python dict-style lookup DaCeOrchestration[s]: the member whose name is s,
if any. -/
def orchestrationOfName (s : String) : Option DaCeOrchestration :=
  if s = "Python" then some DaCeOrchestration.Python
  else if s = "Build" then some DaCeOrchestration.Build
  else if s = "BuildAndRun" then some DaCeOrchestration.BuildAndRun
  else if s = "Run" then some DaCeOrchestration.Run
  else none

/-- The Python exceptions that the embedded code can raise. -/
inductive PyError
  | keyError
  | runtimeError (msg : String)
  | attributeError
deriving DecidableEq, Repr

/-- The Python substring test (pat in s), as used by the backend checks. -/
def strContains (s pat : String) : Prop := List.IsInfix pat.data s.data

instance strContains.instDecidable (s pat : String) : Decidable (strContains s pat) := by
  unfold strContains
  exact inferInstance

/-- The communicator data the constructor reads: rank and communicator size. -/
structure Communicator where
  rank : Nat
  size : Nat
deriving DecidableEq, Repr

/-- External calls performed by DaceConfig.__init__, in program order. -/
inductive Effect
  | readTargetRank
  | setDistributedCaches
  | writeDecomposition
deriving DecidableEq, Repr

/-- The DaceConfig object as built by a successful __init__: its instance
attributes.  attrs records the attribute names assigned by __init__ (Python
objects only carry the attributes that were actually assigned). -/
structure DaceConfig where
  orchestrate : DaCeOrchestration
  backend : String
  my_rank : Nat
  rank_size : Nat
  target_rank : Nat
  attrs : List String
deriving DecidableEq, Repr

/-- The attribute names __init__ assigns on self. -/
def daceConfigAttrs : List String :=
  ["_orchestrate", "_backend", "my_rank", "rank_size", "target_rank"]

/-- The message of the RuntimeError raised on a non-dace backend. -/
def configErrMsg (backend : String) : String :=
  "DaceConfig: orchestration can only be leverage " ++
    "on gtc:dace or gtc:dace:gpu not on " ++ backend

/-- Resolution of the orchestration mode from the FV3_DACEMODE environment
variable: os.getenv defaults to "Python" when unset, then
DaCeOrchestration[value] raises KeyError on an unknown name. -/
def resolveOrchestration (envDaceMode : Option String) : Except PyError DaCeOrchestration :=
  match orchestrationOfName (envDaceMode.getD "Python") with
  | some o => Except.ok o
  | none => Except.error PyError.keyError

/-- Lines 35-38 of dace_config.py: use the explicit orchestration argument
when given, else resolve from the environment. -/
def resolvedOrch (orchestration : Option DaCeOrchestration)
    (envDaceMode : Option String) : Except PyError DaCeOrchestration :=
  match orchestration with
  | some o => Except.ok o
  | none => resolveOrchestration envDaceMode

/-- my_rank as assigned by __init__ (communicator.rank, or 0 without one). -/
def commRank : Option Communicator → Nat
  | some c => c.rank
  | none => 0

/-- rank_size as assigned by __init__ (communicator size, or 1 without one). -/
def commSize : Option Communicator → Nat
  | some c => c.size
  | none => 1

/-- target_rank as assigned by __init__: the external read_target_rank result
with a communicator, else 0. -/
def commTargetRank (communicator : Option Communicator) (externalTargetRank : Nat) : Nat :=
  match communicator with
  | some _ => externalTargetRank
  | none => 0

/-- External calls of the communicator branch: read_target_rank is called
exactly when a communicator is given. -/
def commEffs0 : Option Communicator → List Effect
  | some _ => [Effect.readTargetRank]
  | none => []

/-- DaceConfig.__init__ of dace_config.py.  Arguments: the optional
communicator, the backend string, the optional orchestration argument, the
FV3_DACEMODE environment value, and the value the external read_target_rank
call would return.  Returns the construction result together with the ordered
list of external calls performed before returning or raising. -/
def DaceConfig.init (communicator : Option Communicator) (backend : String)
    (orchestration : Option DaCeOrchestration) (envDaceMode : Option String)
    (externalTargetRank : Nat) : Except PyError DaceConfig × List Effect :=
  match resolvedOrch orchestration envDaceMode with
  | Except.error e => (Except.error e, [])
  | Except.ok orch =>
      let my_rank : Nat := commRank communicator
      let rank_size : Nat := commSize communicator
      let target_rank : Nat := commTargetRank communicator externalTargetRank
      let effs0 : List Effect := commEffs0 communicator
      let effs1 : List Effect := effs0 ++ [Effect.setDistributedCaches]
      let effs2 : List Effect :=
        if (orch = DaCeOrchestration.Build ∨ orch = DaCeOrchestration.BuildAndRun)
            ∧ my_rank = 0 ∧ rank_size > 1
        then effs1 ++ [Effect.writeDecomposition]
        else effs1
      let result : Except PyError DaceConfig :=
        if orch ≠ DaCeOrchestration.Python ∧ ¬ strContains backend "dace"
        then Except.error (PyError.runtimeError (configErrMsg backend))
        else Except.ok
          { orchestrate := orch
            backend := backend
            my_rank := my_rank
            rank_size := rank_size
            target_rank := target_rank
            attrs := daceConfigAttrs }
      (result, effs2)

/-- DaceConfig.is_dace_orchestrated. -/
def DaceConfig.is_dace_orchestrated (cfg : DaceConfig) : Bool :=
  decide (cfg.orchestrate ≠ DaCeOrchestration.Python)

/-- DaceConfig.is_gpu_backend. -/
def DaceConfig.is_gpu_backend (cfg : DaceConfig) : Bool :=
  decide (strContains cfg.backend "gpu")

/-- DaceConfig.get_communicator returns self._communicator; Python raises
AttributeError when the attribute was never assigned. -/
def DaceConfig.get_communicator (cfg : DaceConfig) : Except PyError Unit :=
  if "_communicator" ∈ cfg.attrs then Except.ok () else Except.error PyError.attributeError

theorem configErrMsg_contains (b : String) : strContains (configErrMsg b) b := by
  unfold strContains configErrMsg
  refine List.IsSuffix.isInfix ?_
  have h : (("DaceConfig: orchestration can only be leverage " ++
      "on gtc:dace or gtc:dace:gpu not on " ++ b)).data
      = ("DaceConfig: orchestration can only be leverage " ++
          "on gtc:dace or gtc:dace:gpu not on ").data ++ b.data := rfl
  rw [h]
  exact List.suffix_append _ _

/-- Normal form of the constructor: result and effect list spelled out. -/
theorem DaceConfig.init_eq (communicator : Option Communicator) (backend : String)
    (orchestration : Option DaCeOrchestration) (envDaceMode : Option String)
    (externalTargetRank : Nat) :
    DaceConfig.init communicator backend orchestration envDaceMode externalTargetRank
      = match resolvedOrch orchestration envDaceMode with
        | Except.error e => (Except.error e, [])
        | Except.ok orch =>
            ((if orch ≠ DaCeOrchestration.Python ∧ ¬ strContains backend "dace"
              then Except.error (PyError.runtimeError (configErrMsg backend))
              else Except.ok
                { orchestrate := orch
                  backend := backend
                  my_rank := commRank communicator
                  rank_size := commSize communicator
                  target_rank := commTargetRank communicator externalTargetRank
                  attrs := daceConfigAttrs }),
             (if (orch = DaCeOrchestration.Build ∨ orch = DaCeOrchestration.BuildAndRun)
                  ∧ commRank communicator = 0 ∧ commSize communicator > 1
              then (commEffs0 communicator ++ [Effect.setDistributedCaches])
                    ++ [Effect.writeDecomposition]
              else commEffs0 communicator ++ [Effect.setDistributedCaches])) := by
  unfold DaceConfig.init
  cases resolvedOrch orchestration envDaceMode with
  | error e => rfl
  | ok orch => rfl

/-- Claim C1: for every (mode, backend) pair, construction fails with a fatal
configuration error naming the offending backend iff the resolved mode is not
Python (Direct) and the backend string is not dace-capable; for every
dace-capable backend, construction succeeds for all modes. -/
theorem C1_config_error_iff (communicator : Option Communicator) (backend : String)
    (m : DaCeOrchestration) (envDaceMode : Option String) (externalTargetRank : Nat) :
    ((∃ msg, (DaceConfig.init communicator backend (some m) envDaceMode
          externalTargetRank).1 = Except.error (PyError.runtimeError msg)
        ∧ strContains msg backend)
      ↔ m ≠ DaCeOrchestration.Python ∧ ¬ strContains backend "dace")
    ∧ (strContains backend "dace" →
        ∃ cfg, (DaceConfig.init communicator backend (some m) envDaceMode
          externalTargetRank).1 = Except.ok cfg) := by
  rw [DaceConfig.init_eq]
  simp only [resolvedOrch]
  by_cases h : m ≠ DaCeOrchestration.Python ∧ ¬ strContains backend "dace"
  · rw [if_pos h]
    exact ⟨⟨fun _ => h,
        fun _ => ⟨configErrMsg backend, rfl, configErrMsg_contains backend⟩⟩,
      fun hb => absurd hb h.2⟩
  · rw [if_neg h]
    refine ⟨⟨fun hex => ?_, fun hc => absurd hc h⟩, fun _ => ⟨_, rfl⟩⟩
    obtain ⟨msg, hmsg, _⟩ := hex
    exact Except.noConfusion hmsg

/-- Witness for C1, at the dace-capable backend gtc:dace and mode Build. -/
theorem C1_config_error_iff_witness :
    ∃ cfg, (DaceConfig.init none "gtc:dace" (some DaCeOrchestration.Build) none 0).1
      = Except.ok cfg :=
  (C1_config_error_iff none "gtc:dace" DaCeOrchestration.Build none 0).2 (by decide)

/-- Claim C2 counterexample: with the orchestration argument omitted and the
environment value set to an unrecognized name, construction fails with a
KeyError instead of falling back to the default Python (Direct) mode. -/
theorem C2_no_fallback_counterexample :
    (DaceConfig.init none "numpy" none (some "Garbage") 0).1
        = Except.error PyError.keyError
    ∧ (DaceConfig.init none "numpy" none (some "Garbage") 0).1
        ≠ Except.ok
          { orchestrate := DaCeOrchestration.Python
            backend := "numpy"
            my_rank := 0
            rank_size := 1
            target_rank := 0
            attrs := daceConfigAttrs } := by
  exact ⟨rfl, fun hc => Except.noConfusion hc⟩

/-- Claim C2 amended: when the orchestration argument is omitted, an unset
environment value resolves to the default Python (Direct) mode, but a set
value that is not one of the four enumerated member names makes construction
fail with a KeyError rather than falling back to the default. -/
theorem C2_env_resolution (backend : String) (externalTargetRank : Nat) (s : String)
    (h : ¬ (s = "Python" ∨ s = "Build" ∨ s = "BuildAndRun" ∨ s = "Run")) :
    (DaceConfig.init none backend none none externalTargetRank).1
      = Except.ok
        { orchestrate := DaCeOrchestration.Python
          backend := backend
          my_rank := 0
          rank_size := 1
          target_rank := 0
          attrs := daceConfigAttrs }
    ∧ DaceConfig.init none backend none (some s) externalTargetRank
      = (Except.error PyError.keyError, []) := by
  push_neg at h
  obtain ⟨h1, h2, h3, h4⟩ := h
  constructor
  · rfl
  · unfold DaceConfig.init resolvedOrch resolveOrchestration orchestrationOfName
    simp [h1, h2, h3, h4]

/-- Witness for C2 at the unrecognized environment value Garbage. -/
theorem C2_env_resolution_witness :
    (DaceConfig.init none "numpy" none none 0).1
      = Except.ok
        { orchestrate := DaCeOrchestration.Python
          backend := "numpy"
          my_rank := 0
          rank_size := 1
          target_rank := 0
          attrs := daceConfigAttrs }
    ∧ DaceConfig.init none "numpy" none (some "Garbage") 0
      = (Except.error PyError.keyError, []) :=
  C2_env_resolution "numpy" 0 "Garbage" (by decide)

/-- Claim C3: the decomposition write happens during construction exactly when
a communicator is present with rank 0 and size above 1 and the resolved mode
is Build or BuildAndRun; with rank other than 0, size 1, no communicator, or
mode Python or Run, no write occurs. -/
theorem C3_write_decomposition_iff (communicator : Option Communicator) (backend : String)
    (m : DaCeOrchestration) (envDaceMode : Option String) (externalTargetRank : Nat) :
    Effect.writeDecomposition
        ∈ (DaceConfig.init communicator backend (some m) envDaceMode
            externalTargetRank).2
      ↔ ∃ c, communicator = some c ∧ c.rank = 0 ∧ 1 < c.size
          ∧ (m = DaCeOrchestration.Build ∨ m = DaCeOrchestration.BuildAndRun) := by
  rw [DaceConfig.init_eq]
  simp only [resolvedOrch]
  cases communicator with
  | none =>
      simp [commRank, commSize, commEffs0]
  | some c =>
      by_cases h : (m = DaCeOrchestration.Build ∨ m = DaCeOrchestration.BuildAndRun)
          ∧ commRank (some c) = 0 ∧ commSize (some c) > 1
      · rw [if_pos h]
        obtain ⟨hm, hr, hs⟩ := h
        simp only [commRank] at hr
        simp only [commSize] at hs
        simp [commEffs0]
        exact ⟨hr, hs, hm⟩
      · rw [if_neg h]
        simp only [commRank, commSize] at h
        simp [commEffs0]
        intro hr hs
        by_contra hm
        exact h ⟨by tauto, hr, hs⟩

/-- Every successful construction assigns exactly the five attributes of
daceConfigAttrs; _communicator is not among them. -/
theorem init_ok_attrs (communicator : Option Communicator) (backend : String)
    (orchestration : Option DaCeOrchestration) (envDaceMode : Option String)
    (externalTargetRank : Nat) (cfg : DaceConfig)
    (h : (DaceConfig.init communicator backend orchestration envDaceMode
        externalTargetRank).1 = Except.ok cfg) :
    cfg.attrs = daceConfigAttrs := by
  rw [DaceConfig.init_eq] at h
  cases hres : resolvedOrch orchestration envDaceMode with
  | error e =>
      rw [hres] at h
      exact Except.noConfusion h
  | ok orch =>
      rw [hres] at h
      dsimp only [] at h
      by_cases hc : orch ≠ DaCeOrchestration.Python ∧ ¬ strContains backend "dace"
      · rw [if_pos hc] at h
        exact Except.noConfusion h
      · rw [if_neg hc] at h
        cases Except.ok.inj h
        rfl

/-- Claim C9: for every successfully constructed configuration, the
get_communicator query fails with an AttributeError, because __init__ never
assigns the _communicator attribute. -/
theorem C9_get_communicator_fails (communicator : Option Communicator) (backend : String)
    (orchestration : Option DaCeOrchestration) (envDaceMode : Option String)
    (externalTargetRank : Nat) (cfg : DaceConfig)
    (h : (DaceConfig.init communicator backend orchestration envDaceMode
        externalTargetRank).1 = Except.ok cfg) :
    cfg.get_communicator = Except.error PyError.attributeError := by
  unfold DaceConfig.get_communicator
  rw [init_ok_attrs communicator backend orchestration envDaceMode
    externalTargetRank cfg h]
  rw [if_neg (by decide : ¬ "_communicator" ∈ daceConfigAttrs)]

/-- Witness for C9: the configuration built with no communicator, backend
numpy and mode Python has a failing get_communicator. -/
theorem C9_get_communicator_fails_witness :
    DaceConfig.get_communicator
        { orchestrate := DaCeOrchestration.Python
          backend := "numpy"
          my_rank := 0
          rank_size := 1
          target_rank := 0
          attrs := daceConfigAttrs }
      = Except.error PyError.attributeError :=
  C9_get_communicator_fails none "numpy" (some DaCeOrchestration.Python) none 0 _ rfl

/-- Claim C10: construction is not atomic on configuration error: when the
resolved mode is not Python and the backend is not dace-capable, the
construction fails, yet set_distributed_caches has already been called, and
under the write conditions (rank 0, size above 1, Build or BuildAndRun mode)
write_decomposition has already been called, before the error is raised. -/
theorem C10_effects_precede_error (c : Communicator) (backend : String)
    (m : DaCeOrchestration) (envDaceMode : Option String) (externalTargetRank : Nat)
    (hm : m ≠ DaCeOrchestration.Python) (hb : ¬ strContains backend "dace") :
    (DaceConfig.init (some c) backend (some m) envDaceMode externalTargetRank).1
        = Except.error (PyError.runtimeError (configErrMsg backend))
    ∧ Effect.setDistributedCaches
        ∈ (DaceConfig.init (some c) backend (some m) envDaceMode externalTargetRank).2
    ∧ (c.rank = 0 → 1 < c.size →
        (m = DaCeOrchestration.Build ∨ m = DaCeOrchestration.BuildAndRun) →
        (DaceConfig.init (some c) backend (some m) envDaceMode externalTargetRank).2
          = [Effect.readTargetRank, Effect.setDistributedCaches,
              Effect.writeDecomposition]) := by
  rw [DaceConfig.init_eq]
  simp only [resolvedOrch]
  refine ⟨?_, ?_, ?_⟩
  · rw [if_pos ⟨hm, hb⟩]
  · split
    · simp [commEffs0]
    · simp [commEffs0]
  · intro hr hs hmode
    have hcond : (m = DaCeOrchestration.Build ∨ m = DaCeOrchestration.BuildAndRun)
        ∧ commRank (some c) = 0 ∧ commSize (some c) > 1 :=
      ⟨hmode, by simpa [commRank] using hr, by simpa [commSize] using hs⟩
    rw [if_pos hcond]
    simp [commEffs0]

/-- Witness for C10, at rank 0 of 2 with backend numpy and mode Build. -/
theorem C10_effects_precede_error_witness :
    (DaceConfig.init (some ⟨0, 2⟩) "numpy" (some DaCeOrchestration.Build) none 0).1
        = Except.error (PyError.runtimeError (configErrMsg "numpy"))
    ∧ Effect.setDistributedCaches
        ∈ (DaceConfig.init (some ⟨0, 2⟩) "numpy" (some DaCeOrchestration.Build) none 0).2
    ∧ ((0 : Nat) = 0 → 1 < (2 : Nat) →
        (DaCeOrchestration.Build = DaCeOrchestration.Build
          ∨ DaCeOrchestration.Build = DaCeOrchestration.BuildAndRun) →
        (DaceConfig.init (some ⟨0, 2⟩) "numpy" (some DaCeOrchestration.Build) none 0).2
          = [Effect.readTargetRank, Effect.setDistributedCaches,
              Effect.writeDecomposition]) :=
  C10_effects_precede_error ⟨0, 2⟩ "numpy" DaCeOrchestration.Build none 0
    (by decide) (by decide)

/-! Embedding of src/dsl/pace/dsl/dace/utils.py.

The DaCe SDFG is modelled as an arena: scopes (the root SDFG and every
nested SDFG) are numbered, with 0 the root.  arrays lists the triples
yielded by sdfg.arrays_recursive(): owning scope, array name, descriptor.
accessNodes lists, for every AccessNode anywhere in the graph, the scope
that is the immediate parent of the node's state together with the node's
data name; this is exactly what is_ref inspects (it walks
sd.all_nodes_recursive() and keeps nodes whose state's parent is sd). -/

/-- The DaCe StorageType enum members used by the embedded code. -/
inductive StorageType
  | Default
  | Register
  | CPU_Pinned
  | CPU_Heap
  | CPU_ThreadLocal
  | GPU_Global
  | GPU_Shared
deriving DecidableEq, Repr

/-- The data-descriptor fields count_memory reads: total_size, dtype.bytes,
storage, transient. -/
structure ArrayDesc where
  total_size : Nat
  dtype_bytes : Nat
  storage : StorageType
  transient : Bool
deriving DecidableEq, Repr

/-- Arena model of an SDFG, as consumed by count_memory and is_ref. -/
structure SDFGArena where
  sdfgName : String
  arrays : List (Nat × String × ArrayDesc)
  accessNodes : List (Nat × String)
deriving DecidableEq, Repr

/-- is_ref of utils.py: does some AccessNode whose state's immediate parent
is scope sd carry data name aname? -/
def is_ref (g : SDFGArena) (sd : Nat) (aname : String) : Bool :=
  g.accessNodes.any (fun ns => ns.1 == sd && ns.2 == aname)

/-- The ArrayReport dataclass of utils.py. -/
structure ArrayReport where
  arrayName : String
  total_size_in_bytes : Nat
  referenced : Bool
  transient : Bool
  top_level : Bool
deriving DecidableEq, Repr

/-- The StorageReport dataclass of utils.py (the name field is the storage
type the report is keyed by, kept implicit here). -/
structure StorageReport where
  referenced_in_bytes : Nat
  unreferenced_in_bytes : Nat
  top_level_in_bytes : Nat
  details : List ArrayReport
deriving DecidableEq, Repr

/-- Initial per-storage report. -/
def emptyStorageReport : StorageReport :=
  { referenced_in_bytes := 0
    unreferenced_in_bytes := 0
    top_level_in_bytes := 0
    details := [] }

/-- Update the report of one storage class, leaving the others unchanged. -/
def updateStorage (alloc : StorageType → StorageReport) (st : StorageType)
    (f : StorageReport → StorageReport) : StorageType → StorageReport :=
  fun t => if t = st then f (alloc t) else alloc t

/-- The body of the arrays_recursive loop of count_memory, for one
(sd, aname, arr) triple. -/
def countStep (g : SDFGArena) (alloc : StorageType → StorageReport)
    (entry : Nat × String × ArrayDesc) : StorageType → StorageReport :=
  let sd := entry.1
  let aname := entry.2.1
  let arr := entry.2.2
  let array_size_in_bytes := arr.total_size * arr.dtype_bytes
  let ref := is_ref g sd aname
  if sd ≠ 0 ∧ arr.transient = true then
    updateStorage alloc arr.storage (fun r =>
      let r1 : StorageReport :=
        { r with details := r.details ++
            [{ arrayName := aname
               total_size_in_bytes := array_size_in_bytes
               referenced := ref
               transient := arr.transient
               top_level := false }] }
      if ref then
        { r1 with referenced_in_bytes := r1.referenced_in_bytes + array_size_in_bytes }
      else
        { r1 with unreferenced_in_bytes := r1.unreferenced_in_bytes + array_size_in_bytes })
  else if sd = 0 then
    updateStorage alloc arr.storage (fun r =>
      let r1 : StorageReport :=
        { r with
            details := r.details ++
              [{ arrayName := aname
                 total_size_in_bytes := array_size_in_bytes
                 referenced := ref
                 transient := arr.transient
                 top_level := true }]
            top_level_in_bytes := r.top_level_in_bytes + array_size_in_bytes }
      if ref then
        { r1 with referenced_in_bytes := r1.referenced_in_bytes + array_size_in_bytes }
      else
        { r1 with unreferenced_in_bytes := r1.unreferenced_in_bytes + array_size_in_bytes })
  else alloc

/-- The allocations accumulation of count_memory: fold the loop body over the
triples of arrays_recursive, starting from empty reports. -/
def count_memory_alloc (g : SDFGArena) : StorageType → StorageReport :=
  g.arrays.foldl (countStep g) (fun _ => emptyStorageReport)

/-- updateStorage at the updated storage class applies the update. -/
theorem updateStorage_self (alloc : StorageType → StorageReport) (st : StorageType)
    (f : StorageReport → StorageReport) : updateStorage alloc st f st = f (alloc st) := by
  simp [updateStorage]

/-- updateStorage leaves every other storage class unchanged. -/
theorem updateStorage_other (alloc : StorageType → StorageReport) (st : StorageType)
    (f : StorageReport → StorageReport) (t : StorageType) (h : t ≠ st) :
    updateStorage alloc st f t = alloc t := by
  simp [updateStorage, h]

/-- One loop step adds the array's byte size to referenced + unreferenced of
its storage class exactly when the array is nested-and-transient or
root-owned. -/
theorem countStep_sum (g : SDFGArena) (alloc : StorageType → StorageReport)
    (sd : Nat) (aname : String) (arr : ArrayDesc) (st : StorageType) :
    (countStep g alloc (sd, aname, arr) st).referenced_in_bytes
      + (countStep g alloc (sd, aname, arr) st).unreferenced_in_bytes
    = (alloc st).referenced_in_bytes + (alloc st).unreferenced_in_bytes
      + (if ((sd ≠ 0 ∧ arr.transient = true) ∨ sd = 0) ∧ arr.storage = st
         then arr.total_size * arr.dtype_bytes else 0) := by
  simp only [countStep]
  by_cases h1 : sd ≠ 0 ∧ arr.transient = true
  · rw [if_pos h1]
    by_cases hst : st = arr.storage
    · subst hst
      rw [updateStorage_self]
      rw [if_pos (⟨Or.inl h1, rfl⟩ :
        ((sd ≠ 0 ∧ arr.transient = true) ∨ sd = 0) ∧ arr.storage = arr.storage)]
      cases href : is_ref g sd aname <;> simp [href] <;> omega
    · rw [updateStorage_other _ _ _ _ hst]
      rw [if_neg (fun hx => hst hx.2.symm :
        ¬ (((sd ≠ 0 ∧ arr.transient = true) ∨ sd = 0) ∧ arr.storage = st))]
      simp
  · rw [if_neg h1]
    by_cases h0 : sd = 0
    · rw [if_pos h0]
      by_cases hst : st = arr.storage
      · subst hst
        rw [updateStorage_self]
        rw [if_pos (⟨Or.inr h0, rfl⟩ :
          ((sd ≠ 0 ∧ arr.transient = true) ∨ sd = 0) ∧ arr.storage = arr.storage)]
        cases href : is_ref g sd aname <;> simp [href] <;> omega
      · rw [updateStorage_other _ _ _ _ hst]
        rw [if_neg (fun hx => hst hx.2.symm :
          ¬ (((sd ≠ 0 ∧ arr.transient = true) ∨ sd = 0) ∧ arr.storage = st))]
        simp
    · rw [if_neg h0]
      have hc : ¬ (((sd ≠ 0 ∧ arr.transient = true) ∨ sd = 0) ∧ arr.storage = st) := by
        intro hx
        rcases hx.1 with h | h
        · exact h1 h
        · exact h0 h
      rw [if_neg hc]
      simp

/-- Folding the loop over any triple list accumulates exactly the per-triple
contributions on referenced + unreferenced. -/
theorem foldl_countStep_sum (g : SDFGArena) (l : List (Nat × String × ArrayDesc))
    (alloc : StorageType → StorageReport) (st : StorageType) :
    ((l.foldl (countStep g) alloc) st).referenced_in_bytes
      + ((l.foldl (countStep g) alloc) st).unreferenced_in_bytes
    = (alloc st).referenced_in_bytes + (alloc st).unreferenced_in_bytes
      + (l.map (fun e =>
          if ((e.1 ≠ 0 ∧ e.2.2.transient = true) ∨ e.1 = 0) ∧ e.2.2.storage = st
          then e.2.2.total_size * e.2.2.dtype_bytes else 0)).sum := by
  induction l generalizing alloc with
  | nil => simp
  | cons e tl ih =>
      rcases e with ⟨sd, aname, arr⟩
      rw [List.foldl_cons, ih (countStep g alloc (sd, aname, arr))]
      rw [countStep_sum]
      simp
      omega

/-- Claim C4 counterexample: on a graph whose only array is root-owned and
not transient, referenced + unreferenced bytes of its storage class is 8
while the total transient bytes in that class is 0. -/
def c4Graph : SDFGArena :=
  { sdfgName := "cex"
    arrays := [(0, "A",
      { total_size := 8
        dtype_bytes := 1
        storage := StorageType.CPU_Heap
        transient := false })]
    accessNodes := [] }

/-- Claim C4, as stated, is false: referenced + unreferenced bytes per
storage class can exceed the total transient bytes in that class, because
root-owned non-transient arrays are also accumulated there. -/
theorem C4_transient_sum_counterexample :
    ¬ ((count_memory_alloc c4Graph StorageType.CPU_Heap).referenced_in_bytes
        + (count_memory_alloc c4Graph StorageType.CPU_Heap).unreferenced_in_bytes
      = ((c4Graph.arrays.filter (fun e => e.2.2.transient
            && decide (e.2.2.storage = StorageType.CPU_Heap))).map
          (fun e => e.2.2.total_size * e.2.2.dtype_bytes)).sum) := by
  decide

/-- Claim C4 amended: for every graph and storage class, referenced +
unreferenced bytes equals the summed byte sizes of the arrays that are either
nested (non-root scope) and transient, or owned by the root scope (transient
or not), restricted to that storage class. -/
theorem C4_additivity (g : SDFGArena) (st : StorageType) :
    (count_memory_alloc g st).referenced_in_bytes
      + (count_memory_alloc g st).unreferenced_in_bytes
    = (g.arrays.map (fun e =>
        if ((e.1 ≠ 0 ∧ e.2.2.transient = true) ∨ e.1 = 0) ∧ e.2.2.storage = st
        then e.2.2.total_size * e.2.2.dtype_bytes else 0)).sum := by
  unfold count_memory_alloc
  rw [foldl_countStep_sum]
  simp [emptyStorageReport]

/-- Claim C5: a nested transient array contributes its byte size to the
referenced bucket of its storage class exactly when some access node whose
state's immediate parent is the array's owning scope references it by name,
and to the unreferenced bucket otherwise; other storage classes are
untouched, and a nested non-transient array contributes to no bucket. -/
theorem C5_nested_transient_buckets (g : SDFGArena) (alloc : StorageType → StorageReport)
    (sd : Nat) (aname : String) (arr : ArrayDesc) (hsd : sd ≠ 0) :
    (is_ref g sd aname = true ↔ ∃ p, p ∈ g.accessNodes ∧ p.1 = sd ∧ p.2 = aname)
    ∧ (arr.transient = true →
        (is_ref g sd aname = true →
          (countStep g alloc (sd, aname, arr) arr.storage).referenced_in_bytes
            = (alloc arr.storage).referenced_in_bytes + arr.total_size * arr.dtype_bytes
          ∧ (countStep g alloc (sd, aname, arr) arr.storage).unreferenced_in_bytes
            = (alloc arr.storage).unreferenced_in_bytes)
        ∧ (is_ref g sd aname = false →
          (countStep g alloc (sd, aname, arr) arr.storage).referenced_in_bytes
            = (alloc arr.storage).referenced_in_bytes
          ∧ (countStep g alloc (sd, aname, arr) arr.storage).unreferenced_in_bytes
            = (alloc arr.storage).unreferenced_in_bytes + arr.total_size * arr.dtype_bytes)
        ∧ ∀ st, st ≠ arr.storage →
            countStep g alloc (sd, aname, arr) st = alloc st)
    ∧ (arr.transient = false → countStep g alloc (sd, aname, arr) = alloc) := by
  refine ⟨?_, fun htr => ⟨fun href => ?_, fun href => ?_, fun st hst => ?_⟩, fun htr => ?_⟩
  · simp only [is_ref, List.any_eq_true, Bool.and_eq_true, beq_iff_eq]
  · simp only [countStep]
    rw [if_pos ⟨hsd, htr⟩, updateStorage_self]
    simp [href]
  · simp only [countStep]
    rw [if_pos ⟨hsd, htr⟩, updateStorage_self]
    simp [href]
  · simp only [countStep]
    rw [if_pos ⟨hsd, htr⟩, updateStorage_other _ _ _ _ hst]
  · funext st
    simp only [countStep]
    rw [if_neg (fun hx => by rw [htr] at hx; exact Bool.noConfusion hx.2 :
      ¬ (sd ≠ 0 ∧ arr.transient = true))]
    rw [if_neg hsd]

/-- Witness for C5 at a concrete nested transient array that is referenced in
its own scope. -/
theorem C5_nested_transient_buckets_witness :
    (is_ref ⟨"g", [], [(1, "tmp")]⟩ 1 "tmp" = true
      ↔ ∃ p, p ∈ (⟨"g", [], [(1, "tmp")]⟩ : SDFGArena).accessNodes
          ∧ p.1 = 1 ∧ p.2 = "tmp")
    ∧ ((⟨4, 8, StorageType.CPU_Heap, true⟩ : ArrayDesc).transient = true →
        (is_ref ⟨"g", [], [(1, "tmp")]⟩ 1 "tmp" = true →
          (countStep ⟨"g", [], [(1, "tmp")]⟩ (fun _ => emptyStorageReport)
              (1, "tmp", ⟨4, 8, StorageType.CPU_Heap, true⟩)
              (⟨4, 8, StorageType.CPU_Heap, true⟩ : ArrayDesc).storage).referenced_in_bytes
            = ((fun _ => emptyStorageReport)
                (⟨4, 8, StorageType.CPU_Heap, true⟩ : ArrayDesc).storage).referenced_in_bytes
              + (⟨4, 8, StorageType.CPU_Heap, true⟩ : ArrayDesc).total_size
                * (⟨4, 8, StorageType.CPU_Heap, true⟩ : ArrayDesc).dtype_bytes
          ∧ (countStep ⟨"g", [], [(1, "tmp")]⟩ (fun _ => emptyStorageReport)
              (1, "tmp", ⟨4, 8, StorageType.CPU_Heap, true⟩)
              (⟨4, 8, StorageType.CPU_Heap, true⟩ : ArrayDesc).storage).unreferenced_in_bytes
            = ((fun _ => emptyStorageReport)
                (⟨4, 8, StorageType.CPU_Heap, true⟩ : ArrayDesc).storage).unreferenced_in_bytes)
        ∧ (is_ref ⟨"g", [], [(1, "tmp")]⟩ 1 "tmp" = false →
          (countStep ⟨"g", [], [(1, "tmp")]⟩ (fun _ => emptyStorageReport)
              (1, "tmp", ⟨4, 8, StorageType.CPU_Heap, true⟩)
              (⟨4, 8, StorageType.CPU_Heap, true⟩ : ArrayDesc).storage).referenced_in_bytes
            = ((fun _ => emptyStorageReport)
                (⟨4, 8, StorageType.CPU_Heap, true⟩ : ArrayDesc).storage).referenced_in_bytes
          ∧ (countStep ⟨"g", [], [(1, "tmp")]⟩ (fun _ => emptyStorageReport)
              (1, "tmp", ⟨4, 8, StorageType.CPU_Heap, true⟩)
              (⟨4, 8, StorageType.CPU_Heap, true⟩ : ArrayDesc).storage).unreferenced_in_bytes
            = ((fun _ => emptyStorageReport)
                (⟨4, 8, StorageType.CPU_Heap, true⟩ : ArrayDesc).storage).unreferenced_in_bytes
              + (⟨4, 8, StorageType.CPU_Heap, true⟩ : ArrayDesc).total_size
                * (⟨4, 8, StorageType.CPU_Heap, true⟩ : ArrayDesc).dtype_bytes)
        ∧ ∀ st, st ≠ (⟨4, 8, StorageType.CPU_Heap, true⟩ : ArrayDesc).storage →
            countStep ⟨"g", [], [(1, "tmp")]⟩ (fun _ => emptyStorageReport)
              (1, "tmp", ⟨4, 8, StorageType.CPU_Heap, true⟩) st
              = (fun _ => emptyStorageReport) st)
    ∧ ((⟨4, 8, StorageType.CPU_Heap, true⟩ : ArrayDesc).transient = false →
        countStep ⟨"g", [], [(1, "tmp")]⟩ (fun _ => emptyStorageReport)
          (1, "tmp", ⟨4, 8, StorageType.CPU_Heap, true⟩)
          = fun _ => emptyStorageReport) :=
  C5_nested_transient_buckets ⟨"g", [], [(1, "tmp")]⟩ (fun _ => emptyStorageReport)
    1 "tmp" ⟨4, 8, StorageType.CPU_Heap, true⟩ (by decide)

/-! NaN_checker of utils.py.  The eligibility scan is modelled on the data it
inspects: the MapEntry nodes of the graph (each with the result of
get_parent_map for it), and, for each, the outgoing edges of the matching
exit node, each edge carrying whether its destination is an AccessNode,
whether that node's descriptor is a View, the destination data name, the
dynamic flag of the first memlet of the edge's memlet path, and the storage
class of the destination array. -/

/-- The data of one outgoing edge of a map exit node, as read by
NaN_checker. -/
structure OutEdge where
  dstIsAccessNode : Bool
  dstIsView : Bool
  dstData : String
  pathFirstDynamic : Bool
  dstStorage : StorageType
deriving DecidableEq, Repr

/-- One MapEntry of the graph: the get_parent_map result (none for a
top-level map) and the outgoing edges of its exit node. -/
structure MapRegion where
  parentMap : Option Nat
  outEdges : List OutEdge
deriving DecidableEq, Repr

/-- The continue-chain of the NaN_checker edge loop: an edge yields a check
unless the destination is not an AccessNode, is a View, has diss_estd in its
data name, or the first memlet of its path is dynamic. -/
def edgeCheckKept (e : OutEdge) : Bool :=
  if e.dstIsAccessNode then
    if e.dstIsView then false
    else if strContains e.dstData "diss_estd" then false
    else if e.pathFirstDynamic then false
    else true
  else false

/-- The checks list built by NaN_checker: all kept outgoing edges of exit
nodes of maps whose get_parent_map is None, in graph order. -/
def nanChecks (maps : List MapRegion) : List OutEdge :=
  let allmaps := maps
  let topmaps := allmaps.filter (fun m => m.parentMap.isNone)
  (topmaps.map (fun m => m.outEdges.filter edgeCheckKept)).flatten

/-- The count NaN_checker reports (len(checks)). -/
def NaN_checker_count (maps : List MapRegion) : Nat :=
  (nanChecks maps).length

/-- The two ScheduleType values NaN_checker can assign. -/
inductive ScheduleType
  | Default
  | GPU_Device
deriving DecidableEq, Repr

/-- Lines 201-206 of utils.py: the inserted region's schedule. -/
def inferSchedule (storage : StorageType) : ScheduleType :=
  if storage = StorageType.GPU_Global ∨ storage = StorageType.GPU_Shared
  then ScheduleType.GPU_Device
  else ScheduleType.Default

/-- The insertion loop of NaN_checker: one inserted mapped tasklet per check,
with the schedule inferred from the destination array's storage class. -/
def insertedChecks (maps : List MapRegion) : List (OutEdge × ScheduleType) :=
  (nanChecks maps).map (fun e => (e, inferSchedule e.dstStorage))

/-- The continue-chain is the conjunction of the four eligibility tests. -/
theorem edgeCheckKept_eq (e : OutEdge) :
    edgeCheckKept e
      = (e.dstIsAccessNode && !e.dstIsView
          && !(decide (strContains e.dstData "diss_estd")) && !e.pathFirstDynamic) := by
  rcases e with ⟨a, v, d, dyn, st⟩
  by_cases h : strContains d "diss_estd" <;>
    cases a <;> cases v <;> cases dyn <;> simp [edgeCheckKept, h]

/-- Example graph: two top-level maps, each with one plain array output. -/
def twoTopMaps : List MapRegion :=
  [{ parentMap := none
     outEdges := [{ dstIsAccessNode := true
                    dstIsView := false
                    dstData := "output_a"
                    pathFirstDynamic := false
                    dstStorage := StorageType.CPU_Heap }] },
   { parentMap := none
     outEdges := [{ dstIsAccessNode := true
                    dstIsView := false
                    dstData := "output_b"
                    pathFirstDynamic := false
                    dstStorage := StorageType.CPU_Heap }] }]

/-- Example graph containing only excluded cases: a view output, a
diagnostic-named output, and a dynamic-write output. -/
def onlyExcludedMaps : List MapRegion :=
  [{ parentMap := none
     outEdges := [
       { dstIsAccessNode := true
         dstIsView := true
         dstData := "view_out"
         pathFirstDynamic := false
         dstStorage := StorageType.CPU_Heap },
       { dstIsAccessNode := true
         dstIsView := false
         dstData := "fv_diss_estd_out"
         pathFirstDynamic := false
         dstStorage := StorageType.CPU_Heap },
       { dstIsAccessNode := true
         dstIsView := false
         dstData := "dyn_out"
         pathFirstDynamic := true
         dstStorage := StorageType.CPU_Heap }] }]

/-- Claim C6: the reported insertion count equals, over maps with no parent
map, the number of exit-node out-edges whose destination is an access node,
excluding views, diss_estd-named arrays and dynamic writes; the two-map plain
graph yields 2 and the all-excluded graph yields 0. -/
theorem C6_insertion_count :
    (∀ maps : List MapRegion,
      NaN_checker_count maps
        = ((maps.filter (fun m => m.parentMap.isNone)).map
            (fun m => m.outEdges.countP (fun e =>
              e.dstIsAccessNode && !e.dstIsView
                && !(decide (strContains e.dstData "diss_estd"))
                && !e.pathFirstDynamic))).sum)
    ∧ NaN_checker_count twoTopMaps = 2
    ∧ NaN_checker_count onlyExcludedMaps = 0 := by
  refine ⟨fun maps => ?_, by decide, by decide⟩
  unfold NaN_checker_count nanChecks
  rw [List.length_flatten, List.map_map]
  have hfun : (List.length ∘ fun m : MapRegion => List.filter edgeCheckKept m.outEdges)
      = fun m : MapRegion => List.countP (fun e =>
          e.dstIsAccessNode && !e.dstIsView
            && !(decide (strContains e.dstData "diss_estd"))
            && !e.pathFirstDynamic) m.outEdges := by
    funext m
    simp only [Function.comp_apply]
    rw [List.countP_eq_length_filter]
    rw [(funext edgeCheckKept_eq :
      edgeCheckKept = fun e : OutEdge =>
        e.dstIsAccessNode && !e.dstIsView
          && !(decide (strContains e.dstData "diss_estd")) && !e.pathFirstDynamic)]
  rw [hfun]

/-- Device-resident storage classes, stated from the specification side. -/
def deviceResidentStorage (st : StorageType) : Prop :=
  st = StorageType.GPU_Global ∨ st = StorageType.GPU_Shared

/-- Claim C7: for every check inserted by NaN_checker, the inserted region's
schedule is the GPU device schedule iff the destination array's storage is
device-resident, and the default schedule otherwise. -/
theorem C7_schedule_matches_storage (maps : List MapRegion) (e : OutEdge)
    (s : ScheduleType) (h : (e, s) ∈ insertedChecks maps) :
    (s = ScheduleType.GPU_Device ↔ deviceResidentStorage e.dstStorage)
    ∧ (¬ deviceResidentStorage e.dstStorage → s = ScheduleType.Default) := by
  obtain ⟨e2, _, heq⟩ := List.mem_map.mp h
  injection heq with h1 h2
  subst h2
  rw [← h1]
  unfold inferSchedule deviceResidentStorage
  by_cases hd : e2.dstStorage = StorageType.GPU_Global
      ∨ e2.dstStorage = StorageType.GPU_Shared
  · rw [if_pos hd]
    exact ⟨⟨fun _ => hd, fun _ => rfl⟩, fun hnd => absurd hd hnd⟩
  · rw [if_neg hd]
    exact ⟨⟨fun hc => ScheduleType.noConfusion hc, fun hc => absurd hc hd⟩,
      fun _ => rfl⟩

/-- The GPU example edge for the C7 witness. -/
def gpuEdge : OutEdge :=
  { dstIsAccessNode := true
    dstIsView := false
    dstData := "gpu_out"
    pathFirstDynamic := false
    dstStorage := StorageType.GPU_Global }

/-- A graph with one top-level map producing one GPU-resident output. -/
def gpuMaps : List MapRegion :=
  [{ parentMap := none, outEdges := [gpuEdge] }]

/-- Witness for C7 at the GPU example edge. -/
theorem C7_schedule_matches_storage_witness :
    (ScheduleType.GPU_Device = ScheduleType.GPU_Device
      ↔ deviceResidentStorage gpuEdge.dstStorage)
    ∧ (¬ deviceResidentStorage gpuEdge.dstStorage →
        ScheduleType.GPU_Device = ScheduleType.Default) :=
  C7_schedule_matches_storage gpuMaps gpuEdge ScheduleType.GPU_Device (by decide)

/-! DaCeProgress of utils.py, modelled with abstract integer timestamps: the
entry emits one line and captures the entry time, the exit emits one line
whose elapsed value is exit time minus captured start; __exit__ ignores the
exception triple and returns None (falsy), so no exception is suppressed. -/

/-- DaceConfig.get_orchestrate. -/
def DaceConfig.get_orchestrate (cfg : DaceConfig) : DaCeOrchestration :=
  cfg.orchestrate

/-- Python str() of a DaCeOrchestration member, as interpolated into the
progress prefix. -/
def orchestrationStr (o : DaCeOrchestration) : String :=
  "DaCeOrchestration." ++ o.enumName

/-- The DaCeProgress object: prefix and phase label. -/
structure DaCeProgress where
  pfx : String
  label : String
deriving DecidableEq, Repr

/-- DaCeProgress.__init__: prefix is [<config.get_orchestrate()>]. -/
def DaCeProgress.ofConfig (cfg : DaceConfig) (label : String) : DaCeProgress :=
  { pfx := "[" ++ orchestrationStr cfg.get_orchestrate ++ "]", label := label }

/-- DaCeProgress.log: one printed line, prefix then message. -/
def DaCeProgress.logLine (pfx message : String) : String :=
  pfx ++ " " ++ message

/-- DaCeProgress.__enter__: emits the entry line, captures the start time. -/
def DaCeProgress.enterScope (p : DaCeProgress) (now : Int) : String × Int :=
  (DaCeProgress.logLine p.pfx (p.label ++ "..."), now)

/-- DaCeProgress.__exit__: emits the exit line with elapsed = now - start.
It receives the exception information and returns None; the Bool is the
truthiness of the returned value, i.e. whether the exception would be
suppressed, which is always false. -/
def DaCeProgress.exitScope (p : DaCeProgress) (start : Int) (now : Int)
    (_exc : Option PyError) : String × Bool :=
  (DaCeProgress.logLine p.pfx (p.label ++ "..." ++ toString (now - start) ++ "s."), false)

/-- Claim C8: entry emits [<mode>] <label>... and captures the entry time;
every exit path (with or without an in-flight exception) emits
[<mode>] <label>...<elapsed>s. with elapsed equal to exit time minus the
captured start time, is independent of the exception, and never suppresses
it. -/
theorem C8_progress_logging (cfg : DaceConfig) (label : String) (t1 t2 : Int)
    (exc exc2 : Option PyError) :
    (DaCeProgress.ofConfig cfg label).enterScope t1
      = (DaCeProgress.logLine ("[" ++ orchestrationStr cfg.get_orchestrate ++ "]")
          (label ++ "..."), t1)
    ∧ ((DaCeProgress.ofConfig cfg label).exitScope t1 t2 exc).1
      = DaCeProgress.logLine ("[" ++ orchestrationStr cfg.get_orchestrate ++ "]")
          (label ++ "..." ++ toString (t2 - t1) ++ "s.")
    ∧ (DaCeProgress.ofConfig cfg label).exitScope t1 t2 exc
        = (DaCeProgress.ofConfig cfg label).exitScope t1 t2 exc2
    ∧ ((DaCeProgress.ofConfig cfg label).exitScope t1 t2 exc).2 = false :=
  ⟨rfl, rfl, rfl, rfl⟩

end FV3
